/-
Verification of the WeChat V4 database reader (`wechat_reader.py`).

The file shallowly embeds the reader's data model and operations:
pure computations (MD5-based table-name derivation, type-name rendering,
python `or` on nullable strings) become Lean functions; SQLite queries are
modelled by their result sets (a row list, or an error value standing for a
raised `sqlite3` exception); the filesystem probed by `init_database` is an
abstract predicate on paths relative to the storage root.  Machine words in
MD5 are naturals reduced mod 2^32 at every operation, as in the reference
algorithm.
-/
import Mathlib

/-- Error classes of the Python runtime that the reader distinguishes:
`operational` stands for `sqlite3.OperationalError` (the class the
schema-fallback logic catches), `importError` for a failed
`import zstandard`, and `generic` for every other `Exception`. -/
inductive PyErr where
  | operational
  | importError
  | generic
deriving DecidableEq, Repr

/-- Python `a or b` on a nullable string `a` (`None` and `''` are falsy). -/
def pyOrS (a : Option String) (b : String) : String :=
  match a with
  | some s => if s = "" then b else s
  | none => b

/-- Python `str.startswith`, embedded structurally over the char list. -/
def strStartsWith (s p : String) : Bool :=
  p.data.isPrefixOf s.data

/-- Python `str.endswith`, embedded structurally over the char list. -/
def strEndsWith (s p : String) : Bool :=
  p.data.reverse.isPrefixOf s.data.reverse

namespace MD5

/-- 2^32, the word modulus of MD5. -/
def M32 : Nat := 4294967296

/-- Addition mod 2^32. -/
def add32 (a b : Nat) : Nat := (a + b) % M32

/-- Bitwise complement on 32-bit words. -/
def not32 (x : Nat) : Nat := x ^^^ (M32 - 1)

/-- Left rotation of a 32-bit word by `s` places. -/
def rotl32 (x s : Nat) : Nat :=
  ((x <<< s) % M32) ||| ((x % M32) >>> (32 - s))

/-- The 64 sine-derived round constants of MD5 (RFC 1321). -/
def K : List Nat :=
  [0xd76aa478, 0xe8c7b756, 0x242070db, 0xc1bdceee,
   0xf57c0faf, 0x4787c62a, 0xa8304613, 0xfd469501,
   0x698098d8, 0x8b44f7af, 0xffff5bb1, 0x895cd7be,
   0x6b901122, 0xfd987193, 0xa679438e, 0x49b40821,
   0xf61e2562, 0xc040b340, 0x265e5a51, 0xe9b6c7aa,
   0xd62f105d, 0x02441453, 0xd8a1e681, 0xe7d3fbc8,
   0x21e1cde6, 0xc33707d6, 0xf4d50d87, 0x455a14ed,
   0xa9e3e905, 0xfcefa3f8, 0x676f02d9, 0x8d2a4c8a,
   0xfffa3942, 0x8771f681, 0x6d9d6122, 0xfde5380c,
   0xa4beea44, 0x4bdecfa9, 0xf6bb4b60, 0xbebfbc70,
   0x289b7ec6, 0xeaa127fa, 0xd4ef3085, 0x04881d05,
   0xd9d4d039, 0xe6db99e5, 0x1fa27cf8, 0xc4ac5665,
   0xf4292244, 0x432aff97, 0xab9423a7, 0xfc93a039,
   0x655b59c3, 0x8f0ccc92, 0xffeff47d, 0x85845dd1,
   0x6fa87e4f, 0xfe2ce6e0, 0xa3014314, 0x4e0811a1,
   0xf7537e82, 0xbd3af235, 0x2ad7d2bb, 0xeb86d391]

/-- The per-round left-rotation amounts of MD5. -/
def S : List Nat :=
  [7, 12, 17, 22, 7, 12, 17, 22, 7, 12, 17, 22, 7, 12, 17, 22,
   5, 9, 14, 20, 5, 9, 14, 20, 5, 9, 14, 20, 5, 9, 14, 20,
   4, 11, 16, 23, 4, 11, 16, 23, 4, 11, 16, 23, 4, 11, 16, 23,
   6, 10, 15, 21, 6, 10, 15, 21, 6, 10, 15, 21, 6, 10, 15, 21]

/-- The nonlinear mixing function of round `i`. -/
def mixF (i b c d : Nat) : Nat :=
  if i < 16 then (b &&& c) ||| (not32 b &&& d)
  else if i < 32 then (d &&& b) ||| (not32 d &&& c)
  else if i < 48 then b ^^^ c ^^^ d
  else c ^^^ (b ||| not32 d)

/-- The message-word index used by round `i`. -/
def msgIndex (i : Nat) : Nat :=
  if i < 16 then i % 16
  else if i < 32 then (5 * i + 1) % 16
  else if i < 48 then (3 * i + 5) % 16
  else (7 * i) % 16

/-- One of the 64 MD5 rounds: `M` fetches the chunk's 32-bit words. -/
def step (M : Nat → Nat) (st : Nat × Nat × Nat × Nat) (i : Nat) :
    Nat × Nat × Nat × Nat :=
  let a := st.1
  let b := st.2.1
  let c := st.2.2.1
  let d := st.2.2.2
  let f := add32 (add32 (add32 a (mixF i b c d)) (K.getD i 0)) (M (msgIndex i))
  (d, add32 b (rotl32 f (S.getD i 0)), b, c)

/-- Little-endian 32-bit word `j` of a 64-byte chunk. -/
def chunkWord (chunk : List Nat) (j : Nat) : Nat :=
  chunk.getD (4 * j) 0 + chunk.getD (4 * j + 1) 0 * 256 +
    chunk.getD (4 * j + 2) 0 * 65536 + chunk.getD (4 * j + 3) 0 * 16777216

/-- Process one 64-byte chunk, updating the running state. -/
def processChunk (chunk : List Nat) (st : Nat × Nat × Nat × Nat) :
    Nat × Nat × Nat × Nat :=
  let s := (List.range 64).foldl (step (chunkWord chunk)) st
  (add32 st.1 s.1, add32 st.2.1 s.2.1, add32 st.2.2.1 s.2.2.1,
   add32 st.2.2.2 s.2.2.2)

/-- MD5 padding: a `0x80` byte, zeros to 56 mod 64, then the bit length as a
little-endian 64-bit quantity. -/
def padMessage (msg : List Nat) : List Nat :=
  let bitLen := (msg.length * 8) % (2 ^ 64)
  let zeros := (119 - msg.length % 64) % 64
  msg ++ 0x80 :: (List.replicate zeros 0 ++
    (List.range 8).map (fun i => (bitLen >>> (8 * i)) % 256))

/-- Split a byte list into 64-byte chunks (structural recursion on a fuel
bounded by the list length, so each step consumes at least one element). -/
def toChunksF : Nat → List Nat → List (List Nat)
  | 0, _ => []
  | _, [] => []
  | fuel + 1, l => l.take 64 :: toChunksF fuel (l.drop 64)

/-- Split a byte list into 64-byte chunks. -/
def toChunks (l : List Nat) : List (List Nat) :=
  toChunksF l.length l

/-- The initial MD5 state (A, B, C, D). -/
def initState : Nat × Nat × Nat × Nat :=
  (0x67452301, 0xefcdab89, 0x98badcfe, 0x10325476)

/-- A 32-bit word as four little-endian bytes. -/
def wordLE (w : Nat) : List Nat :=
  [w % 256, (w >>> 8) % 256, (w >>> 16) % 256, (w >>> 24) % 256]

/-- The 16-byte MD5 digest of a byte sequence. -/
def md5 (msg : List Nat) : List Nat :=
  let st := (toChunks (padMessage msg)).foldl (fun s ch => processChunk ch s)
    initState
  wordLE st.1 ++ wordLE st.2.1 ++ wordLE st.2.2.1 ++ wordLE st.2.2.2

end MD5

/-- The lowercase hexadecimal digit for `n < 16` (`'x'` is unreachable). -/
def hexDigit : Nat → Char
  | 0 => '0' | 1 => '1' | 2 => '2' | 3 => '3'
  | 4 => '4' | 5 => '5' | 6 => '6' | 7 => '7'
  | 8 => '8' | 9 => '9' | 10 => 'a' | 11 => 'b'
  | 12 => 'c' | 13 => 'd' | 14 => 'e' | 15 => 'f'
  | _ => 'x'

/-- The two lowercase hex characters of one byte. -/
def byteHex (b : Nat) : List Char :=
  [hexDigit (b / 16), hexDigit (b % 16)]

/-- Python `hashlib`'s `hexdigest`: each digest byte as two lowercase hex
characters. -/
def hexdigest (digest : List Nat) : String :=
  String.mk (digest.map byteHex).flatten

/-- The UTF-8 encoding of one code point (RFC 3629), as byte values. -/
def utf8EncodeCharNat (n : Nat) : List Nat :=
  if n < 0x80 then [n]
  else if n < 0x800 then
    [0xC0 ||| (n >>> 6), 0x80 ||| (n &&& 0x3F)]
  else if n < 0x10000 then
    [0xE0 ||| (n >>> 12), 0x80 ||| ((n >>> 6) &&& 0x3F), 0x80 ||| (n &&& 0x3F)]
  else
    [0xF0 ||| (n >>> 18), 0x80 ||| ((n >>> 12) &&& 0x3F),
     0x80 ||| ((n >>> 6) &&& 0x3F), 0x80 ||| (n &&& 0x3F)]

/-- The UTF-8 encoding of a string, as `username.encode("utf-8")` produces. -/
def utf8Bytes (s : String) : List Nat :=
  s.data.flatMap (fun c => utf8EncodeCharNat c.toNat)

/-- Table-name derivation of `get_messages`:
`table_name = f'Msg_{hashlib.md5(username.encode("utf-8")).hexdigest()}'`. -/
def tableNameOf (username : String) : String :=
  "Msg_" ++ hexdigest (MD5.md5 (utf8Bytes username))

/-- Whether a character is a lowercase hexadecimal digit (`[a-f0-9]`). -/
def isHexLower (c : Char) : Bool :=
  (('0' ≤ c) && (c ≤ '9')) || (('a' ≤ c) && (c ≤ 'f'))

/-- The shape validation of `get_messages`:
`re.match(r'^Msg_[a-f0-9]{32}$', table_name)` read as full-string matching of
the pattern. -/
def msgTableShape (name : String) : Bool :=
  match name.data with
  | 'M' :: 's' :: 'g' :: '_' :: rest => rest.length == 32 && rest.all isHexLower
  | _ => false

/-- A value read from the `message_content` column: SQLite hands the Python
code `bytes`, `str`, or some other value (e.g. `NULL` → `None`). -/
inductive PyVal where
  | bytes (bs : List Nat)
  | str (s : String)
  | other
deriving DecidableEq, Repr

/-- The external decoding environment of the content-decode step:
whether `import zstandard` succeeds, zstd frame decompression
(`ZstdDecompressor().decompress`), strict UTF-8 decoding
(`bytes.decode('utf-8')`) — both of which may raise — and best-effort UTF-8
decoding (`bytes.decode('utf-8', errors='ignore')`), which is total. -/
structure DecEnv where
  zstdAvail : Bool
  decompress : List Nat → Except PyErr (List Nat)
  utf8Strict : List Nat → Except PyErr String
  utf8Ignore : List Nat → String

/-- The per-row content-decode step of `get_messages`, written with the
source's `try/except` as `tryCatch`: attempt zstd decompression plus strict
UTF-8 decoding of the result; on `ImportError` or any other exception fall
back to `content.decode('utf-8', errors='ignore') if content else ''`.
A value that is neither `bytes` nor `str` becomes `''` at `Message`
construction (`content if isinstance(content, str) else ''`). -/
def decodeContentE (env : DecEnv) (v : PyVal) : Except PyErr String :=
  match v with
  | .str s => Except.ok s
  | .other => Except.ok ""
  | .bytes bs =>
    tryCatch
      (if env.zstdAvail then do
          let d ← env.decompress bs
          env.utf8Strict d
        else throw PyErr.importError)
      (fun _ => Except.ok (if bs.isEmpty then "" else env.utf8Ignore bs))

/-- The pure value of the content-decode step (the step never raises). -/
def decodeContent (env : DecEnv) (v : PyVal) : String :=
  match v with
  | .str s => s
  | .other => ""
  | .bytes bs =>
    if env.zstdAvail then
      match env.decompress bs with
      | .error _ => if bs.isEmpty then "" else env.utf8Ignore bs
      | .ok d =>
        match env.utf8Strict d with
        | .error _ => if bs.isEmpty then "" else env.utf8Ignore bs
        | .ok s => s
    else if bs.isEmpty then "" else env.utf8Ignore bs

/-- A raw row of a per-conversation message table `Msg_<md5>`.  Columns are
typed per the schema the queries rely on (`create_time` integer and non-null:
it is the sort key). -/
structure RawRow where
  local_id : Int
  server_id : Option Int
  local_type : Int
  real_sender_id : Option Int
  create_time : Int
  message_content : PyVal
deriving DecidableEq, Repr

/-- One message shard database: the set of table names in `sqlite_master`,
whether the auxiliary `Name2Id` table exists (its absence makes the enriched
query raise `sqlite3.OperationalError`), the `Name2Id` rowid→`user_name`
mapping, the rows of the conversation's `Msg_` table, and an optional error
standing for a shard whose read raises. -/
structure Shard where
  tables : List String
  hasName2Id : Bool
  name2id : List (Int × String)
  msgRows : List RawRow
  failure : Option PyErr
deriving Repr

/-- A row as the two `get_messages` queries deliver it: `sender_username`
and `is_sender` are computed by the SQL text. -/
structure QRow where
  local_id : Int
  server_id : Option Int
  local_type : Int
  sender_username : Option String
  create_time : Int
  message_content : PyVal
  is_sender : Int
deriving DecidableEq, Repr

/-- The message record (`Message` dataclass). -/
structure Message where
  local_id : Int
  server_id : Int
  msg_type : Int
  sender_username : String
  create_time : Int
  content : String
  is_sender : Bool
  talker : String
deriving DecidableEq, Repr

/-- Descending order on `create_time`, as `ORDER BY msg.create_time DESC`. -/
def rawGe (a b : RawRow) : Prop := b.create_time ≤ a.create_time

instance : DecidableRel rawGe := fun a b => inferInstanceAs (Decidable (_ ≤ _))

/-- The window both query forms push to SQLite: the optional
`create_time >= start_time` filter (only when `start_time > 0`), descending
order by `create_time`, then `LIMIT limit OFFSET offset`. -/
def window (limit offset : Nat) (start_time : Int) (rows : List RawRow) :
    List RawRow :=
  (((if start_time > 0 then
      rows.filter (fun r => start_time ≤ r.create_time)
    else rows).insertionSort rawGe).drop offset).take limit

/-- Row production of the enriched query:
`LEFT JOIN Name2Id ON msg.real_sender_id = Name2Id.rowid` resolves
`sender_username`, and `CASE WHEN Name2Id.user_name = ? THEN 1 ELSE 0`
(the parameter is the local user's wxid; SQL `NULL = x` is falsy) computes
`is_sender`. -/
def joinQRow (n2id : List (Int × String)) (myWxid : String) (r : RawRow) :
    QRow :=
  let su := r.real_sender_id.bind
    (fun rid => (n2id.find? (fun p => p.1 == rid)).map (fun p => p.2))
  { local_id := r.local_id, server_id := r.server_id,
    local_type := r.local_type, sender_username := su,
    create_time := r.create_time, message_content := r.message_content,
    is_sender := if su == some myWxid then 1 else 0 }

/-- Row production of the fallback query: `'' as sender_username` and
`0 as is_sender` are literals. -/
def fallbackQRow (r : RawRow) : QRow :=
  { local_id := r.local_id, server_id := r.server_id,
    local_type := r.local_type, sender_username := some "",
    create_time := r.create_time, message_content := r.message_content,
    is_sender := 0 }

/-- `Message` construction from a query row: `server_id` is
`row['server_id'] if row['server_id'] else 0` (`None` → 0; for an integer the
expression is the identity), `sender_username` is `row['sender_username'] or
''`, `is_sender` is `bool(row['is_sender'])`, and the content passes through
the decode step. -/
def rowToMessage (env : DecEnv) (username : String) (q : QRow) : Message :=
  { local_id := q.local_id,
    server_id := q.server_id.getD 0,
    msg_type := q.local_type,
    sender_username := pyOrS q.sender_username "",
    create_time := q.create_time,
    content := decodeContent env q.message_content,
    is_sender := q.is_sender != 0,
    talker := username }

/-- One shard's contribution inside the per-shard `try`: a raised error, or
`none` when `sqlite_master` lacks the table (the loop `continue`s), or the
decoded messages of the window.  The enriched query is attempted first; when
`Name2Id` is missing it raises `sqlite3.OperationalError` and the reduced
query runs instead. -/
def readShard (env : DecEnv) (myWxid username tableName : String)
    (limit offset : Nat) (start_time : Int) (sh : Shard) :
    Except PyErr (Option (List Message)) :=
  match sh.failure with
  | some e => Except.error e
  | none =>
    if sh.tables.contains tableName then
      let qrows :=
        if sh.hasName2Id then
          (window limit offset start_time sh.msgRows).map
            (joinQRow sh.name2id myWxid)
        else
          (window limit offset start_time sh.msgRows).map fallbackQRow
      Except.ok (some (qrows.map (rowToMessage env username)))
    else Except.ok none

/-- Ascending order on `create_time`: the sort key of
`all_messages.sort(key=lambda m: m.create_time)`. -/
def msgLe (a b : Message) : Prop := a.create_time ≤ b.create_time

instance : DecidableRel msgLe := fun a b => inferInstanceAs (Decidable (_ ≤ _))

instance : IsTotal Message msgLe := ⟨fun a b => Int.le_total _ _⟩

instance : IsTrans Message msgLe := ⟨fun _ _ _ h h2 => le_trans h h2⟩

/-- The configuration `get_messages` runs against: the opened shard
databases and the local user's wxid as `_get_my_wxid` returns it
(the `username` field of `info.json`, or `''`). -/
structure MsgCfg where
  message_dbs : List Shard
  myWxid : String

/-- One iteration of the shard loop of `get_messages`: the shard's `try`
body either contributes its messages or is skipped
(`except Exception: continue`, and `continue` when the table is absent). -/
def shardStep (env : DecEnv) (myWxid username tableName : String)
    (limit offset : Nat) (start_time : Int) (acc : List Message)
    (sh : Shard) : List Message :=
  match readShard env myWxid username tableName limit offset start_time sh with
  | .error _ => acc
  | .ok none => acc
  | .ok (some ms) => acc ++ ms

/-- The shard loop of `get_messages`, accumulating `all_messages`. -/
def aggregateShards (env : DecEnv) (cfg : MsgCfg) (username tableName : String)
    (limit offset : Nat) (start_time : Int) : List Message :=
  cfg.message_dbs.foldl
    (shardStep env cfg.myWxid username tableName limit offset start_time) []

/-- `get_messages` once the table name is fixed: validate the shape (reject
with `([], 0)` on mismatch), run the shard loop, sort ascending by
`create_time`, and return the list with its length as the total. -/
def get_messagesForTable (env : DecEnv) (cfg : MsgCfg) (username : String)
    (tableName : String) (limit offset : Nat) (start_time : Int) :
    Except PyErr (List Message × Nat) :=
  if msgTableShape tableName then
    let sorted :=
      (aggregateShards env cfg username tableName limit offset start_time
        |> List.insertionSort msgLe)
    Except.ok (sorted, sorted.length)
  else Except.ok ([], 0)

/-- `WeChatDatabaseV4.get_messages(username, limit, offset, start_time)`:
empty shard list short-circuits to `([], 0)`; otherwise the table name is
derived from the username's MD5 and the guarded per-table read runs.
(The `contact_map` built at the top of the source function is never used
inside it and is omitted.) -/
def get_messages (env : DecEnv) (cfg : MsgCfg) (username : String)
    (limit offset : Nat) (start_time : Int) :
    Except PyErr (List Message × Nat) :=
  if cfg.message_dbs.isEmpty then Except.ok ([], 0)
  else
    get_messagesForTable env cfg username (tableNameOf username) limit offset
      start_time

/-- WeChat's internal message type codes (`MessageType` class). -/
def MessageType.TEXT : Int := 1

def MessageType.IMAGE : Int := 3

def MessageType.VOICE : Int := 34

def MessageType.CONTACT_CARD : Int := 42

def MessageType.VIDEO : Int := 43

def MessageType.EMOJI : Int := 47

def MessageType.LOCATION : Int := 48

def MessageType.LINK : Int := 49

def MessageType.VOIP : Int := 50

def MessageType.SYSTEM : Int := 10000

def MessageType.REVOKE : Int := 10002

/-- The type-name dictionary of `Message._get_type_name`, entry for entry.
The source dictionary has no entry for `MessageType.VOIP`. -/
def typeNames : List (Int × String) :=
  [(MessageType.TEXT, "text"),
   (MessageType.IMAGE, "image"),
   (MessageType.VOICE, "voice"),
   (MessageType.CONTACT_CARD, "contact"),
   (MessageType.VIDEO, "video"),
   (MessageType.EMOJI, "emoji"),
   (MessageType.LOCATION, "location"),
   (MessageType.LINK, "link"),
   (MessageType.SYSTEM, "system"),
   (MessageType.REVOKE, "revoke")]

/-- `types.get(self.msg_type, 'unknown')` for a type code. -/
def typeNameOf (t : Int) : String :=
  ((typeNames.find? (fun p => p.1 == t)).map (fun p => p.2)).getD "unknown"

/-- `Message._get_type_name`. -/
def Message.get_type_name (m : Message) : String :=
  typeNameOf m.msg_type

/-- The `Contact` dataclass with its field defaults. -/
structure Contact where
  wxid : String
  nickname : String
  remark : String
  alias_ : String := ""  -- `alias` field (reserved word in Lean)
  small_head_img_url : String := ""
  type : String := "friend"
  is_chatroom : Bool := false
  member_count : Int := 0
deriving DecidableEq, Repr

/-- The dictionary `Contact.to_dict` renders for the CLI output. -/
structure ContactDict where
  id : String
  name : String
  alias_ : String  -- `alias` field (reserved word in Lean)
  avatar : Option String
  type : String
  memberCount : Int
deriving DecidableEq, Repr

/-- `Contact.to_dict`: remark-preferred display name
(`remark or nickname or wxid`), `avatar` is `small_head_img_url or None`,
and the kind is `'group'` for a chatroom, else `'friend'`. -/
def Contact.to_dict (c : Contact) : ContactDict :=
  { id := c.wxid,
    name := if c.remark ≠ "" then c.remark
      else if c.nickname ≠ "" then c.nickname else c.wxid,
    alias_ := c.alias_,
    avatar := if c.small_head_img_url = "" then none
      else some c.small_head_img_url,
    type := if c.is_chatroom then "group" else "friend",
    memberCount := c.member_count }

/-- A row of the WeChat 4.0 `contact` query
(`SELECT username, alias, local_type, flag, remark, nick_name,
small_head_url, big_head_url`); `username` is the non-null key, text
columns are nullable. -/
structure ContactRowNew where
  username : String
  alias_ : Option String  -- `alias` column (reserved word in Lean)
  local_type : Int
  flag : Int
  remark : Option String
  nick_name : Option String
  small_head_url : Option String
  big_head_url : Option String
deriving DecidableEq, Repr

/-- A row of the older `Contact` query
(`SELECT UserName, Alias, NickName, Type, Remark`). -/
structure ContactRowOld where
  UserName : String
  Alias : Option String
  NickName : Option String
  Type_ : Int  -- `Type` column (reserved word in Lean)
  Remark : Option String
deriving DecidableEq, Repr

/-- A row of the WeChat 4.0 group query
(`SELECT c.username, c.alias, c.nick_name, c.remark, c.small_head_url`). -/
structure GroupRowNew where
  username : String
  alias_ : Option String  -- `alias` column (reserved word in Lean)
  nick_name : Option String
  remark : Option String
  small_head_url : Option String
deriving DecidableEq, Repr

/-- A row of the older group query
(`SELECT UserName, Alias, NickName, Remark`). -/
structure GroupRowOld where
  UserName : String
  Alias : Option String
  NickName : Option String
  Remark : Option String
deriving DecidableEq, Repr

/-- The opened contact database, modelled by what each of the four fixed
query texts returns on it (a row list, or a raised error), plus the
`chat_room` table used by the member-count lookup (`username` keyed,
optional `ext_buffer` blob). -/
structure ContactDb where
  queryNewContacts : Except PyErr (List ContactRowNew)
  queryOldContacts : Except PyErr (List ContactRowOld)
  queryNewGroups : Except PyErr (List GroupRowNew)
  queryOldGroups : Except PyErr (List GroupRowOld)
  chat_room : List (String × Option PyVal)

/-- Contact construction on the WeChat 4.0 `get_contacts` path:
the chat-room flag is `wxid.endswith('@chatroom')`. -/
def mkContactNew (r : ContactRowNew) : Contact :=
  { wxid := r.username,
    nickname := pyOrS r.nick_name r.username,
    remark := pyOrS r.remark (pyOrS r.nick_name r.username),
    alias_ := pyOrS r.alias_ "",
    small_head_img_url := pyOrS r.small_head_url "",
    is_chatroom := strEndsWith r.username "@chatroom" }

/-- Contact construction on the older-schema `get_contacts` path. -/
def mkContactOld (r : ContactRowOld) : Contact :=
  { wxid := r.UserName,
    nickname := pyOrS r.NickName r.UserName,
    remark := pyOrS r.Remark (pyOrS r.NickName r.UserName),
    alias_ := pyOrS r.Alias "",
    is_chatroom := strEndsWith r.UserName "@chatroom" }

/-- Result of a contacts/groups call, recording which schema path ran and
which errors the outer handler reported to stderr. -/
structure ContactsResult where
  contacts : List Contact
  usedFallback : Bool
  logged : List PyErr
deriving Repr

/-- `WeChatDatabaseV4.get_contacts`: no contact handle yields `[]`; the
WeChat 4.0 query is attempted first, `except sqlite3.OperationalError`
switches to the older query, and any other error reaches the outer
`except Exception` which reports it and returns the rows built so far
(none, since the failure is the first query).
(Registrations into `contacts_map` are not needed by any claim and are
omitted.) -/
def get_contacts (db : Option ContactDb) : ContactsResult :=
  match db with
  | none => { contacts := [], usedFallback := false, logged := [] }
  | some d =>
    match d.queryNewContacts with
    | .ok rows =>
      { contacts := rows.map mkContactNew, usedFallback := false, logged := [] }
    | .error e =>
      if e = PyErr.operational then
        match d.queryOldContacts with
        | .ok rows =>
          { contacts := rows.map mkContactOld, usedFallback := true,
            logged := [] }
        | .error e2 =>
          { contacts := [], usedFallback := true, logged := [e2] }
      else { contacts := [], usedFallback := false, logged := [e] }

/-- `WeChatDatabaseV4._get_chatroom_member_count`: the protobuf parse of
`ext_buffer` is stubbed, so every path returns 0 (including the
error-swallowing `except (sqlite3.Error, KeyError)`). -/
def get_chatroom_member_count (chat_room : List (String × Option PyVal))
    (chatroom_name : String) : Int :=
  match chat_room.find? (fun p => p.1 == chatroom_name) with
  | some (_, some _) => 0
  | _ => 0

/-- Group construction on the WeChat 4.0 `get_groups` path. -/
def mkGroupNew (memberCount : Int) (r : GroupRowNew) : Contact :=
  { wxid := r.username,
    nickname := pyOrS r.nick_name r.username,
    remark := pyOrS r.remark (pyOrS r.nick_name r.username),
    alias_ := pyOrS r.alias_ "",
    small_head_img_url := pyOrS r.small_head_url "",
    is_chatroom := true,
    member_count := memberCount }

/-- Group construction on the older-schema `get_groups` path. -/
def mkGroupOld (r : GroupRowOld) : Contact :=
  { wxid := r.UserName,
    nickname := pyOrS r.NickName r.UserName,
    remark := pyOrS r.Remark (pyOrS r.NickName r.UserName),
    alias_ := pyOrS r.Alias "",
    is_chatroom := true,
    member_count := 0 }

/-- `WeChatDatabaseV4.get_groups`, with the same probe-then-fallback shape
as `get_contacts`. -/
def get_groups (db : Option ContactDb) : ContactsResult :=
  match db with
  | none => { contacts := [], usedFallback := false, logged := [] }
  | some d =>
    match d.queryNewGroups with
    | .ok rows =>
      { contacts :=
          rows.map (fun r =>
            mkGroupNew (get_chatroom_member_count d.chat_room r.username) r),
        usedFallback := false, logged := [] }
    | .error e =>
      if e = PyErr.operational then
        match d.queryOldGroups with
        | .ok rows =>
          { contacts := rows.map mkGroupOld, usedFallback := true,
            logged := [] }
        | .error e2 =>
          { contacts := [], usedFallback := true, logged := [e2] }
      else { contacts := [], usedFallback := false, logged := [e] }

/-- The `contacts` CLI command after a successful init: fetch contacts,
drop chatrooms (`[c for c in contacts if not c.is_chatroom]`), render each
with `to_dict`.  A failed init prints `[]`, which the `none` case covers. -/
def contactsCommand (db : Option ContactDb) : List ContactDict :=
  (((get_contacts db).contacts).filter (fun c => !c.is_chatroom)).map
    Contact.to_dict

/-- The storage root as `init_database` probes it: `pathExists` is
`os.path.exists` on a path relative to `db_dir` (given as components), and
`msgFolderListing` is `os.listdir` of the `Msg` subdirectory. -/
structure FS where
  pathExists : List String → Bool
  msgFolderListing : List String

/-- The reader's connection state after construction or `init_database`;
opened connections are identified by the path they were opened on, and
`contactsMapSize` is `len(self.contacts_map)`. -/
structure ReaderState where
  contact_db : Option (List String)
  session_db : Option (List String)
  message_dbs : List (List String)
  contactsMapSize : Nat
  initialized : Bool
deriving DecidableEq, Repr

/-- `WeChatDatabaseV4.__init__`: no connections, empty contact directory,
not initialized. -/
def freshReader : ReaderState :=
  { contact_db := none, session_db := none, message_dbs := [],
    contactsMapSize := 0, initialized := false }

/-- The contact-store probe of `init_database`: `contact/contact.db`, then
`contact.db`, then `MicroMsg.db`, then `Msg/MicroMsg.db`, first hit wins. -/
def contactDbPath (fs : FS) : Option (List String) :=
  if fs.pathExists ["contact", "contact.db"] then some ["contact", "contact.db"]
  else if fs.pathExists ["contact.db"] then some ["contact.db"]
  else if fs.pathExists ["MicroMsg.db"] then some ["MicroMsg.db"]
  else if fs.pathExists ["Msg", "MicroMsg.db"] then some ["Msg", "MicroMsg.db"]
  else none

/-- The session-store probe of `init_database`: `session/session.db`, then
`session.db`. -/
def sessionDbPath (fs : FS) : Option (List String) :=
  if fs.pathExists ["session", "session.db"] then
    some ["session", "session.db"]
  else if fs.pathExists ["session.db"] then some ["session.db"]
  else none

/-- The file name `message_<i>.db`. -/
def messageDbName (i : Nat) : String :=
  "message_" ++ toString i ++ ".db"

/-- The shard probe of `init_database`: if `message_0.db` exists in the
root, enumerate `message_<i>.db` there for `i` in `range(100)`, stopping at
the first missing index (`takeWhile` is the loop's `break`); otherwise the
same enumeration inside `message/` when that directory exists; otherwise
every `MSG*.db` file inside `Msg/`. -/
def messageDbPaths (fs : FS) : List (List String) :=
  if fs.pathExists [messageDbName 0] then
    ((List.range 100).takeWhile
      (fun i => fs.pathExists [messageDbName i])).map
      (fun i => [messageDbName i])
  else if fs.pathExists ["message"] then
    ((List.range 100).takeWhile
      (fun i => fs.pathExists ["message", messageDbName i])).map
      (fun i => ["message", messageDbName i])
  else if fs.pathExists ["Msg"] then
    (fs.msgFolderListing.filter
      (fun n => strStartsWith n "MSG" && strEndsWith n ".db")).map
      (fun n => ["Msg", n])
  else []

/-- `WeChatDatabaseV4.init_database`: resolve the three stores and set
`_initialized = (self.contact_db is not None)`. -/
def init_database (fs : FS) : ReaderState :=
  { contact_db := contactDbPath fs,
    session_db := sessionDbPath fs,
    message_dbs := messageDbPaths fs,
    contactsMapSize := 0,
    initialized := (contactDbPath fs).isSome }

/-- The dictionary `get_status` renders. -/
structure Status where
  initialized : Bool
  hasContactDb : Bool
  hasSessionDb : Bool
  messageDbCount : Nat
  contactCount : Nat
  dbVersion : Nat
deriving DecidableEq, Repr

/-- `WeChatDatabaseV4.get_status`. -/
def get_status (st : ReaderState) : Status :=
  { initialized := st.initialized,
    hasContactDb := st.contact_db.isSome,
    hasSessionDb := st.session_db.isSome,
    messageDbCount := st.message_dbs.length,
    contactCount := st.contactsMapSize,
    dbVersion := 4 }

/-- A decoding environment without zstd support, for concrete witnesses. -/
def envNoZstd : DecEnv :=
  { zstdAvail := false,
    decompress := fun _ => Except.error PyErr.generic,
    utf8Strict := fun _ => Except.error PyErr.generic,
    utf8Ignore := fun _ => "" }

/-- A shard whose read raises, for concrete witnesses. -/
def failingShard : Shard :=
  { tables := [], hasName2Id := false, name2id := [], msgRows := [],
    failure := some PyErr.generic }

/-- A configuration with a single failing shard, for concrete witnesses. -/
def cfgOneFailing : MsgCfg :=
  { message_dbs := [failingShard], myWxid := "" }

/-- A contact database whose newer queries raise a non-operational error,
for concrete witnesses. -/
def dbNonOperational : ContactDb :=
  { queryNewContacts := Except.error PyErr.generic,
    queryOldContacts := Except.ok [],
    queryNewGroups := Except.error PyErr.generic,
    queryOldGroups := Except.ok [],
    chat_room := [] }

/-- A contact database with one plain contact row, for concrete witnesses. -/
def dbOneFriend : ContactDb :=
  { queryNewContacts := Except.ok
      [{ username := "alice", alias_ := none, local_type := 1, flag := 0,
         remark := none, nick_name := some "Alice", small_head_url := none,
         big_head_url := none },
       { username := "team@chatroom", alias_ := none, local_type := 2,
         flag := 0, remark := none, nick_name := some "Team",
         small_head_url := none, big_head_url := none }],
    queryOldContacts := Except.ok [],
    queryNewGroups := Except.ok [],
    queryOldGroups := Except.ok [],
    chat_room := [] }

/-- A storage root holding only `contact.db`, for concrete witnesses. -/
def fsContactOnly : FS :=
  { pathExists := fun p => p == ["contact.db"], msgFolderListing := [] }

/-- A storage root holding only `message_0.db` (no contact store at all):
the configuration that refutes the zero-counts claim about `status`. -/
def fsShardOnly : FS :=
  { pathExists := fun p => p == [messageDbName 0], msgFolderListing := [] }

/-- A storage root with nothing in it, for concrete witnesses. -/
def fsEmpty : FS :=
  { pathExists := fun _ => false, msgFolderListing := [] }

/-- A raw row with the given timestamp, for concrete examples. -/
def rowAt (t : Int) : RawRow :=
  { local_id := t, server_id := none, local_type := 1,
    real_sender_id := none, create_time := t,
    message_content := PyVal.str "hi" }

/-- A shard holding the conversation table of `"alice"` with the given rows,
for concrete examples. -/
def aliceShard (rows : List RawRow) : Shard :=
  { tables := [tableNameOf "alice"], hasName2Id := false, name2id := [],
    msgRows := rows, failure := none }

/-- Two shards that both hold the `"alice"` table, two rows each: the
configuration showing the per-shard window is not re-truncated after
aggregation. -/
def cfgTwoShards : MsgCfg :=
  { message_dbs := [aliceShard [rowAt 10, rowAt 20], aliceShard [rowAt 5]],
    myWxid := "" }

/-- The `total` field of a message-read result, for concrete checks. -/
def totalOf (r : Except PyErr (List Message × Nat)) : Option Nat :=
  r.toOption.map (fun p => p.2)

/-- The one dictionary the `contacts` command renders for `dbOneFriend`. -/
def dictAlice : ContactDict :=
  { id := "alice", name := "Alice", alias_ := "", avatar := none,
    type := "friend", memberCount := 0 }

/-
Helper lemmas, shared by the claim theorems below.
-/

theorem wordLE_lt (w : Nat) : ∀ b ∈ MD5.wordLE w, b < 256 := by
  intro b hb
  simp only [MD5.wordLE, List.mem_cons, List.not_mem_nil, or_false] at hb
  rcases hb with h | h | h | h <;> subst h <;> exact Nat.mod_lt _ (by norm_num)

theorem md5_length (m : List Nat) : (MD5.md5 m).length = 16 := by
  simp [MD5.md5, MD5.wordLE]

theorem md5_lt (m : List Nat) : ∀ b ∈ MD5.md5 m, b < 256 := by
  intro b hb
  simp only [MD5.md5, List.mem_append] at hb
  rcases hb with ((h | h) | h) | h <;> exact wordLE_lt _ _ h

theorem length_flatten_byteHex (l : List Nat) :
    ((l.map byteHex).flatten).length = 2 * l.length := by
  induction l with
  | nil => simp
  | cons b t ih => simp [byteHex, ih]; omega

theorem mem_flatten_byteHex {l : List Nat} (hl : ∀ b ∈ l, b < 256) :
    ∀ c ∈ (l.map byteHex).flatten, isHexLower c = true := by
  intro c hc
  simp only [List.mem_flatten, List.mem_map] at hc
  obtain ⟨cs, ⟨b, hb, rfl⟩, hcs⟩ := hc
  have hblt := hl b hb
  have hx : ∀ n, n < 16 → isHexLower (hexDigit n) = true := by decide
  simp only [byteHex, List.mem_cons, List.not_mem_nil, or_false] at hcs
  rcases hcs with h | h <;> subst h
  · exact hx _ (by omega)
  · exact hx _ (by omega)

theorem msgTableShape_cons (cs : List Char) :
    msgTableShape (String.mk ('M' :: 's' :: 'g' :: '_' :: cs)) =
      (cs.length == 32 && cs.all isHexLower) := rfl

theorem tableName_shape (u : String) : msgTableShape (tableNameOf u) = true := by
  have e : tableNameOf u =
      String.mk ('M' :: 's' :: 'g' :: '_' ::
        ((MD5.md5 (utf8Bytes u)).map byteHex).flatten) := rfl
  rw [e, msgTableShape_cons]
  rw [length_flatten_byteHex, md5_length]
  simp only [Nat.reduceMul, beq_self_eq_true, Bool.true_and, List.all_eq_true]
  exact fun c hc => mem_flatten_byteHex (md5_lt _) c hc

set_option maxRecDepth 10000

/-- C2: table-name derivation is a deterministic function of the
conversation identifier, every derived name (including for identifiers
containing SQL metacharacters) matches the shape `Msg_` plus exactly 32
lowercase hex characters so the validation never rejects a derived name,
and any name failing the shape check is rejected with the empty result. -/
theorem claim_c2 :
    (∀ u v : String, u = v → tableNameOf u = tableNameOf v)
    ∧ (∀ u : String, msgTableShape (tableNameOf u) = true)
    ∧ (∀ (env : DecEnv) (cfg : MsgCfg) (username name : String)
        (limit offset : Nat) (start_time : Int),
        msgTableShape name = false →
        get_messagesForTable env cfg username name limit offset start_time =
          Except.ok ([], 0)) := by
  refine ⟨fun u v h => by rw [h], tableName_shape, ?_⟩
  intro env cfg username name l o t h
  simp [get_messagesForTable, h]

/-- Witness for C2 at concrete inputs: an identifier full of SQL
metacharacters still derives a name of the valid shape, and a manually
constructed non-conforming name is refused with the empty result. -/
theorem claim_c2_witness :
    tableNameOf "bob" = tableNameOf "bob"
    ∧ msgTableShape (tableNameOf "x; DROP TABLE contact--") = true
    ∧ get_messagesForTable envNoZstd cfgOneFailing "u" "Msg_0" 100 0 0 =
        Except.ok ([], 0) :=
  ⟨claim_c2.1 "bob" "bob" rfl, claim_c2.2.1 _,
   claim_c2.2.2 envNoZstd cfgOneFailing "u" "Msg_0" 100 0 0 (by decide)⟩

/-- C7: the rendered type-name string for each code of the fixed
enumeration; every code outside the rendering dictionary yields
`"unknown"`.  The dictionary in the source omits `MessageType.VOIP`
(declared as 50), so code 50 renders `"unknown"`, not `"voip"` — this
evaluates the code at the claim's failing input. -/
theorem claim_c7 :
    (∀ m : Message, m.get_type_name = typeNameOf m.msg_type)
    ∧ typeNameOf MessageType.TEXT = "text"
    ∧ typeNameOf MessageType.IMAGE = "image"
    ∧ typeNameOf MessageType.VOICE = "voice"
    ∧ typeNameOf MessageType.CONTACT_CARD = "contact"
    ∧ typeNameOf MessageType.VIDEO = "video"
    ∧ typeNameOf MessageType.EMOJI = "emoji"
    ∧ typeNameOf MessageType.LOCATION = "location"
    ∧ typeNameOf MessageType.LINK = "link"
    ∧ typeNameOf MessageType.SYSTEM = "system"
    ∧ typeNameOf MessageType.REVOKE = "revoke"
    ∧ typeNameOf MessageType.VOIP = "unknown"
    ∧ typeNameOf 2 = "unknown"
    ∧ typeNameOf 999 = "unknown" :=
  ⟨fun _ => rfl, by decide⟩

/-- C6 counterexample: a storage root holding only `message_0.db` has no
contact store, so initialization fails (`initialized = false`), yet the
status reports a nonzero shard count — refuting "zero counts for every
count field before any successful initialization". -/
theorem claim_c6_counterexample :
    (get_status (init_database fsShardOnly)).initialized = false
    ∧ (get_status (init_database fsShardOnly)).messageDbCount = 1 := by
  constructor <;> decide

/-- C6 (amended): before `init_database` runs, the status reports
`initialized = false` and all-zero counts; after an initialization that
found no contact store, the status still reports `initialized = false` and
a zero contact count, but the shard count reflects the shard files found
and can be nonzero. -/
theorem claim_c6 :
    get_status freshReader =
      { initialized := false, hasContactDb := false, hasSessionDb := false,
        messageDbCount := 0, contactCount := 0, dbVersion := 4 }
    ∧ (∀ fs : FS,
        fs.pathExists ["contact", "contact.db"] = false →
        fs.pathExists ["contact.db"] = false →
        fs.pathExists ["MicroMsg.db"] = false →
        fs.pathExists ["Msg", "MicroMsg.db"] = false →
        (get_status (init_database fs)).initialized = false
        ∧ (get_status (init_database fs)).contactCount = 0) := by
  refine ⟨rfl, ?_⟩
  intro fs h1 h2 h3 h4
  exact ⟨by simp [get_status, init_database, contactDbPath, h1, h2, h3, h4],
    rfl⟩

/-- Witness for C6 (amended) at a storage root with no contact store. -/
theorem claim_c6_witness :
    (get_status (init_database fsEmpty)).initialized = false
    ∧ (get_status (init_database fsEmpty)).contactCount = 0 :=
  claim_c6.2 fsEmpty rfl rfl rfl rfl

/-- C5: in `get_contacts` and `get_groups` the old-schema fallback runs
exactly when the newer query raises `sqlite3.OperationalError` (the
"no such table/column" class); any error outside that class is reported by
the outer handler and does not trigger the fallback. -/
theorem claim_c5 : ∀ d : ContactDb,
    ((get_contacts (some d)).usedFallback = true ↔
      d.queryNewContacts = Except.error PyErr.operational)
    ∧ (∀ e, d.queryNewContacts = Except.error e → e ≠ PyErr.operational →
        (get_contacts (some d)).usedFallback = false
        ∧ (get_contacts (some d)).logged = [e])
    ∧ ((get_groups (some d)).usedFallback = true ↔
      d.queryNewGroups = Except.error PyErr.operational)
    ∧ (∀ e, d.queryNewGroups = Except.error e → e ≠ PyErr.operational →
        (get_groups (some d)).usedFallback = false
        ∧ (get_groups (some d)).logged = [e]) := by
  intro d
  refine ⟨?_, ?_, ?_, ?_⟩
  · cases hq : d.queryNewContacts with
    | error e =>
      by_cases he : e = PyErr.operational
      · subst he
        cases hq2 : d.queryOldContacts <;> simp [get_contacts, hq, hq2]
      · simp [get_contacts, hq, he]
    | ok rows => simp [get_contacts, hq]
  · intro e he hne
    exact ⟨by simp [get_contacts, he, hne], by simp [get_contacts, he, hne]⟩
  · cases hq : d.queryNewGroups with
    | error e =>
      by_cases he : e = PyErr.operational
      · subst he
        cases hq2 : d.queryOldGroups <;> simp [get_groups, hq, hq2]
      · simp [get_groups, hq, he]
    | ok rows => simp [get_groups, hq]
  · intro e he hne
    exact ⟨by simp [get_groups, he, hne], by simp [get_groups, he, hne]⟩

/-- Witness for C5: a generic (non-operational) failure of the newer query
is reported and does not trigger the old-schema fallback. -/
theorem claim_c5_witness :
    (get_contacts (some dbNonOperational)).usedFallback = false
    ∧ (get_contacts (some dbNonOperational)).logged = [PyErr.generic] :=
  (claim_c5 dbNonOperational).2.1 PyErr.generic rfl (by decide)

/-- Every contact `get_contacts` constructs carries the chat-room flag
computed as `wxid.endswith('@chatroom')`, on both schema paths. -/
theorem contacts_chatroom_flag (db : Option ContactDb) (c : Contact)
    (hc : c ∈ (get_contacts db).contacts) :
    c.is_chatroom = strEndsWith c.wxid "@chatroom" := by
  match db with
  | none => simp [get_contacts] at hc
  | some d =>
    cases hq : d.queryNewContacts with
    | ok rows =>
      simp only [get_contacts, hq, List.mem_map] at hc
      obtain ⟨r, _, rfl⟩ := hc
      rfl
    | error e =>
      by_cases he : e = PyErr.operational
      · subst he
        cases hq2 : d.queryOldContacts with
        | ok rows =>
          simp only [get_contacts, hq, hq2, if_true, List.mem_map,
            reduceIte] at hc
          obtain ⟨r, _, rfl⟩ := hc
          rfl
        | error e2 => simp [get_contacts, hq, hq2] at hc
      · simp [get_contacts, hq, he] at hc

/-- C9: every dictionary the `contacts` command prints has kind `friend`
and an identifier that does not end in `@chatroom`, because the command
filters out chatroom-flagged contacts and the flag is computed from the
identifier suffix. -/
theorem claim_c9 : ∀ (db : Option ContactDb),
    ∀ d ∈ contactsCommand db,
      d.type = "friend" ∧ strEndsWith d.id "@chatroom" = false := by
  intro db d hd
  obtain ⟨c, hc, rfl⟩ := List.mem_map.mp hd
  obtain ⟨hmem, hflag⟩ := List.mem_filter.mp hc
  have hcf : c.is_chatroom = false := by simpa using hflag
  have hflagEq := contacts_chatroom_flag db c hmem
  refine ⟨by simp [Contact.to_dict, hcf], ?_⟩
  show strEndsWith c.wxid "@chatroom" = false
  rw [← hflagEq]
  exact hcf

/-- Witness for C9: the contacts command on a store holding one friend and
one chatroom prints exactly the friend's dictionary, which the theorem
certifies as kind `friend` with a non-chatroom identifier. -/
theorem claim_c9_witness :
    dictAlice.type = "friend" ∧ strEndsWith dictAlice.id "@chatroom" = false :=
  claim_c9 (some dbOneFriend) dictAlice (by decide)

/-- C8: initialization resolves the contact store by probing the four
fixed paths in order and opening the first that exists; when none exists
the call fails; when a contact store exists but no shard databases are
found anywhere, initialization succeeds with an empty shard list. -/
theorem claim_c8 : ∀ fs : FS,
    (fs.pathExists ["contact", "contact.db"] = true →
      (init_database fs).contact_db = some ["contact", "contact.db"])
    ∧ (fs.pathExists ["contact", "contact.db"] = false →
       fs.pathExists ["contact.db"] = true →
      (init_database fs).contact_db = some ["contact.db"])
    ∧ (fs.pathExists ["contact", "contact.db"] = false →
       fs.pathExists ["contact.db"] = false →
       fs.pathExists ["MicroMsg.db"] = true →
      (init_database fs).contact_db = some ["MicroMsg.db"])
    ∧ (fs.pathExists ["contact", "contact.db"] = false →
       fs.pathExists ["contact.db"] = false →
       fs.pathExists ["MicroMsg.db"] = false →
       fs.pathExists ["Msg", "MicroMsg.db"] = true →
      (init_database fs).contact_db = some ["Msg", "MicroMsg.db"])
    ∧ (fs.pathExists ["contact", "contact.db"] = false →
       fs.pathExists ["contact.db"] = false →
       fs.pathExists ["MicroMsg.db"] = false →
       fs.pathExists ["Msg", "MicroMsg.db"] = false →
      (init_database fs).contact_db = none
      ∧ (init_database fs).initialized = false)
    ∧ ((init_database fs).contact_db.isSome = true →
       fs.pathExists [messageDbName 0] = false →
       fs.pathExists ["message"] = false →
       fs.pathExists ["Msg"] = false →
      (init_database fs).initialized = true
      ∧ (init_database fs).message_dbs = []) := by
  intro fs
  refine ⟨?_, ?_, ?_, ?_, ?_, ?_⟩
  · intro h1
    simp [init_database, contactDbPath, h1]
  · intro h1 h2
    simp [init_database, contactDbPath, h1, h2]
  · intro h1 h2 h3
    simp [init_database, contactDbPath, h1, h2, h3]
  · intro h1 h2 h3 h4
    simp [init_database, contactDbPath, h1, h2, h3, h4]
  · intro h1 h2 h3 h4
    constructor <;> simp [init_database, contactDbPath, h1, h2, h3, h4]
  · intro hs h0 hm hM
    refine ⟨hs, ?_⟩
    simp [init_database, messageDbPaths, h0, hm, hM]

/-- Witness for C8: a root holding only a flat `contact.db` initializes
successfully on the second probe with an empty shard list. -/
theorem claim_c8_witness :
    (init_database fsContactOnly).contact_db = some ["contact.db"]
    ∧ (init_database fsContactOnly).initialized = true
    ∧ (init_database fsContactOnly).message_dbs = [] := by
  have h := claim_c8 fsContactOnly
  exact ⟨h.2.1 (by decide) (by decide),
    (h.2.2.2.2.2 (by decide) (by decide) (by decide) (by decide)).1,
    (h.2.2.2.2.2 (by decide) (by decide) (by decide) (by decide)).2⟩

/-- The window a shard query returns holds at most `limit` rows. -/
theorem length_window_le (limit offset : Nat) (start_time : Int)
    (rows : List RawRow) : (window limit offset start_time rows).length ≤
      limit := by
  simp only [window, List.length_take]
  exact Nat.min_le_left _ _

/-- A successful per-shard read found the table and returned at most
`limit` messages. -/
theorem readShard_ok_some {env : DecEnv} {w u tn : String} {l o : Nat}
    {t : Int} {sh : Shard} {ms : List Message}
    (h : readShard env w u tn l o t sh = Except.ok (some ms)) :
    ms.length ≤ l ∧ sh.tables.contains tn = true := by
  unfold readShard at h
  cases hf : sh.failure with
  | some e => rw [hf] at h; cases h
  | none =>
    rw [hf] at h
    by_cases hc : sh.tables.contains tn
    · refine ⟨?_, hc⟩
      rw [if_pos hc] at h
      by_cases hj : sh.hasName2Id <;>
        simp only [hj, if_true, if_false, Except.ok.injEq, Option.some.injEq,
          reduceIte] at h <;>
        rw [← h] <;>
        simpa using length_window_le l o t sh.msgRows
    · rw [if_neg hc] at h
      cases h

/-- The shard loop grows the accumulator by at most `limit` messages per
shard that contains the conversation's table. -/
theorem foldl_shardStep_length (env : DecEnv) (w u tn : String) (l o : Nat)
    (t : Int) : ∀ (dbs : List Shard) (acc : List Message),
    (dbs.foldl (shardStep env w u tn l o t) acc).length ≤
      acc.length + (dbs.countP (fun sh => sh.tables.contains tn)) * l := by
  intro dbs
  induction dbs with
  | nil => intro acc; simp
  | cons sh dbs ih =>
    intro acc
    rw [List.foldl_cons, List.countP_cons]
    rcases hr : readShard env w u tn l o t sh with e | oms
    · have hstep : shardStep env w u tn l o t acc sh = acc := by
        simp [shardStep, hr]
      rw [hstep]
      exact le_trans (ih acc)
        (Nat.add_le_add_left
          (Nat.mul_le_mul_right _ (Nat.le_add_right _ _)) _)
    · rcases oms with _ | ms
      · have hstep : shardStep env w u tn l o t acc sh = acc := by
          simp [shardStep, hr]
        rw [hstep]
        exact le_trans (ih acc)
          (Nat.add_le_add_left
            (Nat.mul_le_mul_right _ (Nat.le_add_right _ _)) _)
      · have hstep : shardStep env w u tn l o t acc sh = acc ++ ms := by
          simp [shardStep, hr]
        obtain ⟨hlen, hcontains⟩ := readShard_ok_some hr
        rw [hstep, hcontains]
        have h1 := ih (acc ++ ms)
        simp only [List.length_append] at h1
        have h2 : (dbs.countP (fun sh => sh.tables.contains tn) + 1) * l =
            dbs.countP (fun sh => sh.tables.contains tn) * l + l := by
          rw [Nat.add_mul, Nat.one_mul]
        simp only [if_true, reduceIte]
        omega

/-- A shard loop in which no shard contributes leaves `all_messages`
unchanged. -/
theorem foldl_shardStep_id (env : DecEnv) (w u tn : String) (l o : Nat)
    (t : Int) : ∀ (dbs : List Shard) (acc : List Message),
    (∀ sh ∈ dbs, ∀ ms,
      readShard env w u tn l o t sh ≠ Except.ok (some ms)) →
    dbs.foldl (shardStep env w u tn l o t) acc = acc := by
  intro dbs
  induction dbs with
  | nil => intro acc _; rfl
  | cons sh dbs ih =>
    intro acc h
    rw [List.foldl_cons]
    have hstep : shardStep env w u tn l o t acc sh = acc := by
      rcases hr : readShard env w u tn l o t sh with e | oms
      · simp [shardStep, hr]
      · rcases oms with _ | ms
        · simp [shardStep, hr]
        · exact absurd hr (h sh (by simp) ms)
    rw [hstep]
    exact ih acc (fun s hs ms => h s (by simp [hs]) ms)

/-- Removing a shard whose read raises does not change the shard loop's
result. -/
theorem foldl_shardStep_error (env : DecEnv) (w u tn : String) (l o : Nat)
    (t : Int) (sh : Shard) (e : PyErr)
    (hr : readShard env w u tn l o t sh = Except.error e)
    (pre post : List Shard) (acc : List Message) :
    (pre ++ sh :: post).foldl (shardStep env w u tn l o t) acc =
      (pre ++ post).foldl (shardStep env w u tn l o t) acc := by
  rw [List.foldl_append, List.foldl_append, List.foldl_cons]
  have hstep : ∀ a, shardStep env w u tn l o t a sh = a := by
    intro a; simp [shardStep, hr]
  rw [hstep]

/-- C1: for every conversation identifier and shard configuration,
`get_messages` succeeds and its message list is sorted non-decreasingly by
`create_time` — adjacent returned messages always satisfy
`m.create_time ≤ m'.create_time`, because the aggregator re-sorts the
concatenated per-shard results ascending before returning. -/
theorem claim_c1 : ∀ (env : DecEnv) (cfg : MsgCfg) (username : String)
    (limit offset : Nat) (start_time : Int),
    ∃ msgs total,
      get_messages env cfg username limit offset start_time =
        Except.ok (msgs, total)
      ∧ msgs.Chain' msgLe := by
  intro env cfg u l o t
  by_cases h : cfg.message_dbs.isEmpty = true
  · exact ⟨[], 0, by simp [get_messages, h], List.chain'_nil⟩
  · refine ⟨List.insertionSort msgLe
      (aggregateShards env cfg u (tableNameOf u) l o t),
      (List.insertionSort msgLe
        (aggregateShards env cfg u (tableNameOf u) l o t)).length, ?_, ?_⟩
    · simp [get_messages, h, get_messagesForTable, tableName_shape]
    · exact List.Pairwise.chain' (List.sorted_insertionSort msgLe _)

/-- C4: `get_messages` never propagates an exception — every call returns
a value; an empty shard list yields `([], 0)`; when every shard errors or
lacks the conversation's table the call yields `([], 0)`; and a shard
whose read raises is skipped, leaving the result equal to the run without
that shard. -/
theorem claim_c4 :
    (∀ (env : DecEnv) (cfg : MsgCfg) (username : String) (limit offset : Nat)
        (start_time : Int),
      ∃ r, get_messages env cfg username limit offset start_time =
        Except.ok r)
    ∧ (∀ (env : DecEnv) (myWxid username : String) (limit offset : Nat)
        (start_time : Int),
      get_messages env { message_dbs := [], myWxid := myWxid } username limit
        offset start_time = Except.ok ([], 0))
    ∧ (∀ (env : DecEnv) (cfg : MsgCfg) (username : String)
        (limit offset : Nat) (start_time : Int),
      (∀ sh ∈ cfg.message_dbs, ∀ ms,
        readShard env cfg.myWxid username (tableNameOf username) limit offset
          start_time sh ≠ Except.ok (some ms)) →
      get_messages env cfg username limit offset start_time =
        Except.ok ([], 0))
    ∧ (∀ (env : DecEnv) (myWxid username : String) (limit offset : Nat)
        (start_time : Int) (pre post : List Shard) (sh : Shard) (e : PyErr),
      readShard env myWxid username (tableNameOf username) limit offset
        start_time sh = Except.error e →
      get_messages env { message_dbs := pre ++ sh :: post, myWxid := myWxid }
        username limit offset start_time =
      get_messages env { message_dbs := pre ++ post, myWxid := myWxid }
        username limit offset start_time) := by
  refine ⟨?_, ?_, ?_, ?_⟩
  · intro env cfg u l o t
    by_cases h : cfg.message_dbs.isEmpty = true
    · exact ⟨([], 0), by simp [get_messages, h]⟩
    · refine ⟨(List.insertionSort msgLe
        (aggregateShards env cfg u (tableNameOf u) l o t),
        (List.insertionSort msgLe
          (aggregateShards env cfg u (tableNameOf u) l o t)).length), ?_⟩
      simp [get_messages, h, get_messagesForTable, tableName_shape]
  · intro env w u l o t
    simp [get_messages]
  · intro env cfg u l o t h
    by_cases he : cfg.message_dbs.isEmpty = true
    · simp [get_messages, he]
    · have hagg : aggregateShards env cfg u (tableNameOf u) l o t = [] :=
        foldl_shardStep_id env cfg.myWxid u (tableNameOf u) l o t
          cfg.message_dbs [] h
      simp [get_messages, he, get_messagesForTable, tableName_shape, hagg]
  · intro env w u l o t pre post sh e hr
    by_cases hpp : (pre ++ post).isEmpty = true
    · have hpre : pre = [] := by
        cases pre with
        | nil => rfl
        | cons a t => simp at hpp
      have hpost : post = [] := by
        cases post with
        | nil => rfl
        | cons a t => simp [hpre] at hpp
      subst hpre; subst hpost
      have hagg : aggregateShards env { message_dbs := [sh], myWxid := w } u
          (tableNameOf u) l o t = [] := by
        simp only [aggregateShards, List.foldl_cons, List.foldl_nil]
        simp [shardStep, hr]
      simp [get_messages, get_messagesForTable, tableName_shape, hagg]
    · have h1 : (pre ++ sh :: post).isEmpty = false := by
        cases pre <;> simp
      have h2 : (pre ++ post).isEmpty = false := by
        simpa using hpp
      have hagg : aggregateShards env
          { message_dbs := pre ++ sh :: post, myWxid := w } u
          (tableNameOf u) l o t =
        aggregateShards env { message_dbs := pre ++ post, myWxid := w } u
          (tableNameOf u) l o t := by
        simp only [aggregateShards]
        exact foldl_shardStep_error env w u (tableNameOf u) l o t sh e hr
          pre post []
      simp [get_messages, h1, h2, get_messagesForTable, tableName_shape,
        hagg]

/-- Witness for C4: a configuration whose only shard raises yields
`([], 0)`, and dropping that failing shard leaves the result unchanged. -/
theorem claim_c4_witness :
    get_messages envNoZstd cfgOneFailing "alice" 100 0 0 = Except.ok ([], 0)
    ∧ get_messages envNoZstd { message_dbs := [failingShard], myWxid := "" }
        "alice" 5 0 0 =
      get_messages envNoZstd { message_dbs := [], myWxid := "" }
        "alice" 5 0 0 := by
  constructor
  · refine claim_c4.2.2.1 envNoZstd cfgOneFailing "alice" 100 0 0 ?_
    intro sh hsh ms h
    have : sh = failingShard := by simpa [cfgOneFailing] using hsh
    subst this
    simp [readShard, failingShard] at h
  · exact claim_c4.2.2.2 envNoZstd "" "alice" 5 0 0 [] [] failingShard
      PyErr.generic rfl

/-- C10: the `limit`/`offset` window applies inside each shard's query and
the aggregate is never re-truncated: the returned total always equals the
returned list's length, the list holds at most `k * limit` messages for
`k` shards containing the table, and a concrete two-shard configuration
with `limit = 1` returns 2 messages. -/
theorem claim_c10 : ∀ (env : DecEnv) (cfg : MsgCfg) (username : String)
    (limit offset : Nat) (start_time : Int),
    ∃ msgs total,
      get_messages env cfg username limit offset start_time =
        Except.ok (msgs, total)
      ∧ total = msgs.length
      ∧ msgs.length ≤
          (cfg.message_dbs.countP
            (fun sh => sh.tables.contains (tableNameOf username))) * limit
      ∧ totalOf (get_messages envNoZstd cfgTwoShards "alice" 1 0 0) =
          some 2 := by
  intro env cfg u l o t
  have hconcrete : totalOf (get_messages envNoZstd cfgTwoShards "alice" 1 0 0)
      = some 2 := by decide
  by_cases h : cfg.message_dbs.isEmpty = true
  · exact ⟨[], 0, by simp [get_messages, h], rfl, by simp, hconcrete⟩
  · refine ⟨List.insertionSort msgLe
      (aggregateShards env cfg u (tableNameOf u) l o t),
      (List.insertionSort msgLe
        (aggregateShards env cfg u (tableNameOf u) l o t)).length,
      ?_, rfl, ?_, hconcrete⟩
    · simp [get_messages, h, get_messagesForTable, tableName_shape]
    · rw [List.length_insertionSort]
      simpa [aggregateShards] using
        foldl_shardStep_length env cfg.myWxid u (tableNameOf u) l o t
          cfg.message_dbs []

/-- `tryCatch` on an `Except` error value runs the handler. -/
theorem except_tryCatch_error {A : Type} (e : PyErr)
    (k : PyErr -> Except PyErr A) :
    tryCatch (Except.error e) k = k e := rfl

/-- `tryCatch` on an `Except` success is the success. -/
theorem except_tryCatch_ok {A : Type} (a : A)
    (k : PyErr -> Except PyErr A) :
    tryCatch (Except.ok a) k = Except.ok a := rfl

/-- C3: the content-decode step is total — for every decoding environment
and raw payload it returns `Except.ok` of the pure decode value, and the
fallback tiers behave as specified: a non-string non-bytes value and a
failed decode of an empty byte string give `""`, a `str` passes through,
and when zstd support is missing or decompression or strict UTF-8 decoding
fails, the result is best-effort UTF-8 decoding of the raw bytes (the
empty string for an empty payload). -/
theorem claim_c3 : ∀ (env : DecEnv) (v : PyVal),
    decodeContentE env v = Except.ok (decodeContent env v)
    ∧ decodeContent env PyVal.other = ""
    ∧ (∀ s, decodeContent env (PyVal.str s) = s)
    ∧ (env.zstdAvail = false → ∀ bs,
        decodeContent env (PyVal.bytes bs) =
          if bs.isEmpty then "" else env.utf8Ignore bs)
    ∧ (∀ bs e, env.zstdAvail = true → env.decompress bs = Except.error e →
        decodeContent env (PyVal.bytes bs) =
          if bs.isEmpty then "" else env.utf8Ignore bs)
    ∧ (∀ bs d e, env.zstdAvail = true → env.decompress bs = Except.ok d →
        env.utf8Strict d = Except.error e →
        decodeContent env (PyVal.bytes bs) =
          if bs.isEmpty then "" else env.utf8Ignore bs)
    ∧ (∀ bs d s, env.zstdAvail = true → env.decompress bs = Except.ok d →
        env.utf8Strict d = Except.ok s →
        decodeContent env (PyVal.bytes bs) = s) := by
  intro env v
  obtain ⟨z, dec, u8, u8i⟩ := env
  refine ⟨?_, rfl, fun s => rfl, ?_, ?_, ?_, ?_⟩
  · cases v with
    | str s => rfl
    | other => rfl
    | bytes bs =>
      cases z with
      | false => rfl
      | true =>
        cases hdec : dec bs with
        | error e =>
          simp [decodeContentE, decodeContent, hdec, except_tryCatch_error,
            except_tryCatch_ok, Bind.bind, Except.bind]
        | ok d =>
          cases hu : u8 d with
          | error e =>
            simp [decodeContentE, decodeContent, hdec, hu,
              except_tryCatch_error, except_tryCatch_ok, Bind.bind,
              Except.bind]
          | ok s =>
            simp [decodeContentE, decodeContent, hdec, hu,
              except_tryCatch_error, except_tryCatch_ok, Bind.bind,
              Except.bind]
  · intro hz bs
    subst hz
    rfl

  · intro bs e hz hdec
    subst hz
    dsimp only at hdec
    simp [decodeContent, hdec]
  · intro bs d e hz hdec hu
    subst hz
    dsimp only at hdec hu
    simp [decodeContent, hdec, hu]
  · intro bs d s hz hdec hu
    subst hz
    dsimp only at hdec hu
    simp [decodeContent, hdec, hu]

/-- Witness for C3: with zstd support absent, a nonempty byte payload
falls back to best-effort UTF-8 decoding and the step still returns
`Except.ok`. -/
theorem claim_c3_witness :
    decodeContentE envNoZstd (PyVal.bytes [0, 159])
      = Except.ok (decodeContent envNoZstd (PyVal.bytes [0, 159]))
    ∧ decodeContent envNoZstd (PyVal.bytes [0, 159]) =
        if ([0, 159] : List Nat).isEmpty then ""
        else envNoZstd.utf8Ignore [0, 159] := by
  constructor
  · exact (claim_c3 envNoZstd (PyVal.bytes [0, 159])).1
  · exact (claim_c3 envNoZstd (PyVal.bytes [0, 159])).2.2.2.1 rfl [0, 159]
